import Mathlib

/-!
Shallow embedding of the operational core of the `joan-dashboard` repository:
the staleness-tolerant fetch cache (`joan_screens._cache_fetch`), the device
registry (`joan_dashboard.discover_devices`), delivery
(`joan_dashboard.push_image` / `push_to_all`) and the playlist scheduler
(`joan_dashboard.main`, playlist mode).

Python dictionaries become association lists, wall-clock times become `Int`
(seconds or minutes since an arbitrary origin), a fallible Python call becomes
an `Except String` value describing the outcome of that one call, and a raised
exception that a caller does not catch becomes an `Except.error` result of the
caller.  Print statements relevant to the claims are modelled as log-event
lists.
-/

namespace Joan

/-- Canvas width in pixels (`joan_dashboard.WIDTH`). -/
def WIDTH : Nat := 1600

/-- Canvas height in pixels (`joan_dashboard.HEIGHT`). -/
def HEIGHT : Nat := 1200

/-! ## Staleness-tolerant cache (`joan_screens.py`, `_cache_fetch`)

The Python module keeps `_cache = {}  # key -> {"data": ..., "ts": float}`.
We model the dictionary as an association list from keys to entries, with
dictionary update semantics (`cacheSet` replaces in place, first match wins
for lookup; Python dict keys are unique, which `cacheSet` preserves). -/

/-- One cache entry: the `{"data": ..., "ts": now}` dict stored per key. -/
structure CacheEntry (α : Type) where
  data : α
  ts : Int
  deriving Repr, DecidableEq

/-- The module-level `_cache` dictionary: key → entry. -/
abbrev Cache (α : Type) := List (String × CacheEntry α)

/-- `_cache.get(key)`. -/
def cacheGet {α : Type} : Cache α → String → Option (CacheEntry α)
  | [], _ => none
  | (k', e) :: rest, k => if k' = k then some e else cacheGet rest k

/-- `_cache[key] = entry` (dictionary update: replace if present, append if not). -/
def cacheSet {α : Type} : Cache α → String → CacheEntry α → Cache α
  | [], k, e => [(k, e)]
  | (k', e') :: rest, k, e =>
      if k' = k then (k, e) :: rest else (k', e') :: cacheSet rest k e

/-- Log lines printed by `_cache_fetch` that matter to the spec. -/
inductive LogEvent where
  /-- `print(f"[cache] '{key}' fetch failed: {e}")` -/
  | fetchFailed (key : String)
  /-- `print(f"[cache] Serving stale '{key}' (age {...}s)")` -/
  | servingStale (key : String) (age : Int)
  deriving Repr, DecidableEq

/-- Result of one `_cache_fetch` call: the returned value (`none` = Python
`None`), the cache dictionary after the call, whether `fetch_fn` was invoked,
and the log lines printed. -/
structure FetchResult (α : Type) where
  ret : Option α
  cache : Cache α
  invoked : Bool
  log : List LogEvent

/-- `_cache_fetch(key, ttl, max_stale, fetch_fn)` from `joan_screens.py`.

`now` is the value of `time.time()` at the top of the call; `fetch_fn` is the
outcome that invoking `fetch_fn()` would produce during this call (`.ok v`:
returns `v`; `.error e`: raises).  Mirrors the source line by line:

    entry = _cache.get(key)
    if entry and (now - entry["ts"]) < ttl: return entry["data"]
    try:
        data = fetch_fn(); _cache[key] = {"data": data, "ts": now}; return data
    except Exception as e:
        print(f"[cache] '{key}' fetch failed: {e}")
        if entry and max_stale > 0 and (now - entry["ts"]) < max_stale:
            print(f"[cache] Serving stale '{key}' ...")
            return entry["data"]
        return None
-/
def cacheFetch {α : Type} (c : Cache α) (key : String) (ttl max_stale : Int)
    (now : Int) (fetch_fn : Except String α) : FetchResult α :=
  match cacheGet c key with
  | some entry =>
      if now - entry.ts < ttl then
        { ret := some entry.data, cache := c, invoked := false, log := [] }
      else
        match fetch_fn with
        | .ok data =>
            { ret := some data, cache := cacheSet c key ⟨data, now⟩,
              invoked := true, log := [] }
        | .error _ =>
            if 0 < max_stale ∧ now - entry.ts < max_stale then
              { ret := some entry.data, cache := c, invoked := true,
                log := [.fetchFailed key, .servingStale key (now - entry.ts)] }
            else
              { ret := none, cache := c, invoked := true,
                log := [.fetchFailed key] }
  | none =>
      match fetch_fn with
      | .ok data =>
          { ret := some data, cache := cacheSet c key ⟨data, now⟩,
            invoked := true, log := [] }
      | .error _ =>
          { ret := none, cache := c, invoked := true,
            log := [.fetchFailed key] }

/-- Lookup after update: the updated key reads back the new entry, any other
key is untouched. -/
theorem cacheGet_cacheSet {α : Type} (c : Cache α) (k k' : String) (e : CacheEntry α) :
    cacheGet (cacheSet c k e) k' = if k = k' then some e else cacheGet c k' := by
  induction c with
  | nil =>
      simp [cacheSet, cacheGet]
  | cons hd tl ih =>
      obtain ⟨k₀, e₀⟩ := hd
      by_cases h₀ : k₀ = k
      · subst h₀
        by_cases h₁ : k₀ = k'
        · subst h₁; simp [cacheSet, cacheGet]
        · simp [cacheSet, cacheGet, h₁]
      · by_cases h₁ : k₀ = k'
        · subst h₁
          have hne : k ≠ k₀ := fun h => h₀ h.symm
          simp [cacheSet, cacheGet, h₀, hne]
        · simp [cacheSet, cacheGet, h₀, h₁, ih]

/-- The failure branch of `_cache_fetch` (the `except` clause) never changes
the cache dictionary. -/
theorem cacheFetch_error_cache {α : Type} (c : Cache α) (key : String)
    (ttl ms now : Int) (err : String) :
    (cacheFetch c key ttl ms now (.error err)).cache = c := by
  unfold cacheFetch
  cases h : cacheGet c key with
  | none => rfl
  | some e =>
      by_cases hf : now - e.ts < ttl
      · simp [hf]
      · by_cases hs : 0 < ms ∧ now - e.ts < ms <;> simp [hf, hs]

/-- C1 counterexample: the claim asserts that two `_cache_fetch` calls for the
same key within `ttl` of one another invoke `fetch_fn` at most once.  Starting
from an empty cache with `ttl = 10`, a failing `fetch_fn` is invoked at `t = 0`
(no entry exists), does not populate the cache, and is invoked again at
`t = 5 < ttl`: two invocations within `ttl`. -/
theorem C1_counterexample :
    (cacheFetch ([] : Cache Nat) "jokes" 10 60 0 (.error "down")).invoked = true
    ∧ (cacheFetch (cacheFetch ([] : Cache Nat) "jokes" 10 60 0 (.error "down")).cache
        "jokes" 10 60 5 (.error "down")).invoked = true
    ∧ (5 : Int) - 0 < 10 := by
  refine ⟨rfl, rfl, by decide⟩

/-- C1 (amended): `_cache_fetch` invokes `fetch_fn` iff no entry exists for the
key or the entry's age `now - fetched_at` is `≥ ttl`; two fetch calls for the
same key within `ttl` of one another invoke `fetch_fn` at most once *provided
the first call's `fetch_fn` succeeds when invoked* (a failed invocation does
not populate the cache, so the second call invokes `fetch_fn` again); and with
`ttl = 0` every call on a non-future-dated entry attempts a fresh fetch while
still allowing stale fallback on failure. -/
theorem C1_cache_fetch_invocation {α : Type} (c : Cache α) (key : String)
    (ttl ms t₁ t₂ : Int) (f₁ f₂ : Except String α)
    (hord : t₁ ≤ t₂) (hwithin : t₂ - t₁ < ttl) :
    ((cacheFetch c key ttl ms t₁ f₁).invoked = false
        ↔ ∃ e, cacheGet c key = some e ∧ t₁ - e.ts < ttl)
    ∧ ((∃ v, f₁ = Except.ok v) →
        (cacheFetch c key ttl ms t₁ f₁).invoked = false
          ∨ (cacheFetch (cacheFetch c key ttl ms t₁ f₁).cache key ttl ms t₂ f₂).invoked
              = false)
    ∧ (∀ (ms' t : Int) (f : Except String α) (e : CacheEntry α),
        cacheGet c key = some e → e.ts ≤ t →
        (cacheFetch c key 0 ms' t f).invoked = true)
    ∧ (∀ (ms' t : Int) (err : String) (e : CacheEntry α),
        cacheGet c key = some e → e.ts ≤ t → t - e.ts < ms' →
        (cacheFetch c key 0 ms' t (.error err)).ret = some e.data) := by
  refine ⟨?_, ?_, ?_, ?_⟩
  · cases h : cacheGet c key with
    | none =>
        cases f₁ <;> simp [cacheFetch, h]
    | some e =>
        by_cases hf : t₁ - e.ts < ttl
        · simp [cacheFetch, h, hf]
        · cases f₁ with
          | ok v => simp [cacheFetch, h, hf]
          | error err =>
              by_cases hs : 0 < ms ∧ t₁ - e.ts < ms <;>
                simp [cacheFetch, h, hf, hs]
  · rintro ⟨v, rfl⟩
    cases h : cacheGet c key with
    | none =>
        right
        have hc : (cacheFetch c key ttl ms t₁ (.ok v)).cache
            = cacheSet c key ⟨v, t₁⟩ := by
          simp [cacheFetch, h]
        rw [hc]
        have hget : cacheGet (cacheSet c key ⟨v, t₁⟩) key = some ⟨v, t₁⟩ := by
          simp [cacheGet_cacheSet]
        simp [cacheFetch, hget, hwithin]
    | some e =>
        by_cases hf : t₁ - e.ts < ttl
        · left; simp [cacheFetch, h, hf]
        · right
          have hc : (cacheFetch c key ttl ms t₁ (.ok v)).cache
              = cacheSet c key ⟨v, t₁⟩ := by
            simp [cacheFetch, h, hf]
          rw [hc]
          have hget : cacheGet (cacheSet c key ⟨v, t₁⟩) key = some ⟨v, t₁⟩ := by
            simp [cacheGet_cacheSet]
          simp [cacheFetch, hget, hwithin]
  · intro ms' t f e he hts
    have hf : ¬ t - e.ts < 0 := by omega
    cases f with
    | ok v => simp [cacheFetch, he, hf]
    | error err =>
        by_cases hs : 0 < ms' ∧ t - e.ts < ms' <;> simp [cacheFetch, he, hf, hs]
  · intro ms' t err e he hts hstale
    have hf : ¬ t - e.ts < 0 := by omega
    have hs : 0 < ms' ∧ t - e.ts < ms' := ⟨by omega, hstale⟩
    simp [cacheFetch, he, hf, hs]

/-- Witness for `C1_cache_fetch_invocation` at a concrete cache and times. -/
theorem C1_cache_fetch_invocation_witness :
    (3 : Int) ≤ 5 ∧ (5 : Int) - 3 < 10 ∧
    (((cacheFetch [("k", (⟨7, 0⟩ : CacheEntry Nat))] "k" 10 60 3 (.ok 9)).invoked = false
        ↔ ∃ e, cacheGet [("k", (⟨7, 0⟩ : CacheEntry Nat))] "k" = some e ∧ 3 - e.ts < 10)
    ∧ ((∃ v, (.ok 9 : Except String Nat) = Except.ok v) →
        (cacheFetch [("k", (⟨7, 0⟩ : CacheEntry Nat))] "k" 10 60 3 (.ok 9)).invoked = false
          ∨ (cacheFetch (cacheFetch [("k", (⟨7, 0⟩ : CacheEntry Nat))] "k" 10 60 3
              (.ok 9)).cache "k" 10 60 5 (.error "x")).invoked = false)
    ∧ (∀ (ms' t : Int) (f : Except String Nat) (e : CacheEntry Nat),
        cacheGet [("k", (⟨7, 0⟩ : CacheEntry Nat))] "k" = some e → e.ts ≤ t →
        (cacheFetch [("k", (⟨7, 0⟩ : CacheEntry Nat))] "k" 0 ms' t f).invoked = true)
    ∧ (∀ (ms' t : Int) (err : String) (e : CacheEntry Nat),
        cacheGet [("k", (⟨7, 0⟩ : CacheEntry Nat))] "k" = some e → e.ts ≤ t →
        t - e.ts < ms' →
        (cacheFetch [("k", (⟨7, 0⟩ : CacheEntry Nat))] "k" 0 ms' t
            (.error err)).ret = some e.data)) :=
  ⟨by decide, by decide,
    C1_cache_fetch_invocation [("k", ⟨7, 0⟩)] "k" 10 60 3 5 (.ok 9) (.error "x")
      (by decide) (by decide)⟩

/-- C2: for a key whose entry holds value `V` fetched at time `T`, a
`_cache_fetch` call at a time past the TTL whose `fetch_fn` fails returns `V`
when the entry's age is strictly below `max_stale` and `None` when the age is
`≥ max_stale`; when no entry exists the call returns `None`; the fetch error is
logged.  The error is never propagated: `cacheFetch` is total, the `.error`
outcome of `fetch_fn` is consumed inside it. -/
theorem C2_stale_fallback {α : Type} (c : Cache α) (key : String)
    (ttl ms now : Int) (e : CacheEntry α) (err : String)
    (hent : cacheGet c key = some e)
    (httl : 0 ≤ ttl) (hpast : ttl ≤ now - e.ts) :
    (now - e.ts < ms → (cacheFetch c key ttl ms now (.error err)).ret = some e.data)
    ∧ (ms ≤ now - e.ts → (cacheFetch c key ttl ms now (.error err)).ret = none)
    ∧ LogEvent.fetchFailed key ∈ (cacheFetch c key ttl ms now (.error err)).log
    ∧ (∀ (c' : Cache α) (k' : String) (ttl' ms' now' : Int) (err' : String),
        cacheGet c' k' = none →
        (cacheFetch c' k' ttl' ms' now' (.error err')).ret = none) := by
  have hf : ¬ now - e.ts < ttl := not_lt.2 hpast
  refine ⟨?_, ?_, ?_, ?_⟩
  · intro hlt
    have hs : 0 < ms ∧ now - e.ts < ms := ⟨by omega, hlt⟩
    simp [cacheFetch, hent, hf, hs]
  · intro hge
    have hs : ¬ (0 < ms ∧ now - e.ts < ms) := by omega
    simp [cacheFetch, hent, hf, hs]
  · by_cases hs : 0 < ms ∧ now - e.ts < ms <;> simp [cacheFetch, hent, hf, hs]
  · intro c' k' ttl' ms' now' err' hnone
    simp [cacheFetch, hnone]

/-- Witness for `C2_stale_fallback`: entry fetched at `T = 0` with value `7`,
`ttl = 10`, `max_stale = 60`, failing refetch at `now = 11 = T + ttl + 1`. -/
theorem C2_stale_fallback_witness :
    cacheGet [("w", (⟨7, 0⟩ : CacheEntry Nat))] "w" = some ⟨7, 0⟩
    ∧ (0 : Int) ≤ 10 ∧ (10 : Int) ≤ 11 - (0 : Int)
    ∧ (((11 : Int) - (0 : Int) < 60 →
        (cacheFetch [("w", (⟨7, 0⟩ : CacheEntry Nat))] "w" 10 60 11
            (.error "boom")).ret = some (7 : Nat))
      ∧ ((60 : Int) ≤ 11 - (0 : Int) →
        (cacheFetch [("w", (⟨7, 0⟩ : CacheEntry Nat))] "w" 10 60 11
            (.error "boom")).ret = none)
      ∧ LogEvent.fetchFailed "w" ∈
          (cacheFetch [("w", (⟨7, 0⟩ : CacheEntry Nat))] "w" 10 60 11
            (.error "boom")).log
      ∧ (∀ (c' : Cache Nat) (k' : String) (ttl' ms' now' : Int) (err' : String),
          cacheGet c' k' = none →
          (cacheFetch c' k' ttl' ms' now' (.error err')).ret = none)) :=
  ⟨by decide, by decide, by decide,
    C2_stale_fallback [("w", ⟨7, 0⟩)] "w" 10 60 11 ⟨7, 0⟩ "boom"
      (by decide) (by decide) (by decide)⟩

/-- C3: a `_cache_fetch` call whose `fetch_fn` fails leaves the whole cache
dictionary (hence every entry's `data` and `ts`) unchanged, and across any
fetch call an entry can only change into the pair `(v, now)` written by a
successful `fetch_fn` returning `v` for that same key. -/
theorem C3_failed_fetch_preserves_entries {α : Type} (c : Cache α)
    (key : String) (ttl ms now : Int) (err : String) :
    (cacheFetch c key ttl ms now (.error err)).cache = c
    ∧ (∀ (f : Except String α) (k' : String) (e' : CacheEntry α),
        cacheGet (cacheFetch c key ttl ms now f).cache k' = some e' →
        cacheGet c k' = some e'
          ∨ (k' = key ∧ ∃ v, f = Except.ok v ∧ e' = ⟨v, now⟩)) := by
  refine ⟨cacheFetch_error_cache c key ttl ms now err, ?_⟩
  intro f k' e' hget
  cases f with
  | error e =>
      rw [cacheFetch_error_cache] at hget
      exact Or.inl hget
  | ok v =>
      have hc : (cacheFetch c key ttl ms now (.ok v)).cache = c
          ∨ (cacheFetch c key ttl ms now (.ok v)).cache = cacheSet c key ⟨v, now⟩ := by
        unfold cacheFetch
        cases h : cacheGet c key with
        | none => right; rfl
        | some e =>
            by_cases hf : now - e.ts < ttl
            · left; simp [hf]
            · right; simp [hf]
      rcases hc with hc | hc
      · rw [hc] at hget; exact Or.inl hget
      · rw [hc, cacheGet_cacheSet] at hget
        by_cases hk : key = k'
        · subst hk
          simp at hget
          exact Or.inr ⟨rfl, v, rfl, hget.symm⟩
        · simp [hk] at hget
          exact Or.inl hget

/-- Witness for `C3_failed_fetch_preserves_entries`: a successful refetch of
key `"k"` at `now = 5` rewrites its entry to `(9, 5)`. -/
theorem C3_failed_fetch_preserves_entries_witness :
    (cacheFetch [("k", (⟨7, 0⟩ : CacheEntry Nat))] "k" 3 60 5
        (.error "boom")).cache = [("k", (⟨7, 0⟩ : CacheEntry Nat))]
    ∧ (cacheGet [("k", (⟨7, 0⟩ : CacheEntry Nat))] "k" = some ⟨9, 5⟩
        ∨ ("k" = "k" ∧ ∃ v, (.ok 9 : Except String Nat) = Except.ok v
            ∧ (⟨9, 5⟩ : CacheEntry Nat) = ⟨v, 5⟩)) :=
  ⟨(C3_failed_fetch_preserves_entries [("k", ⟨7, 0⟩)] "k" 3 60 5 "boom").1,
    (C3_failed_fetch_preserves_entries [("k", ⟨7, 0⟩)] "k" 3 60 5 "boom").2
      (.ok 9) "k" ⟨9, 5⟩ (by decide)⟩

/-! ## Device registry and delivery (`joan_dashboard.py`)

`discover_devices` queries the VSS fleet backend; `push_image` adapts and
uploads one bitmap to one device; `push_to_all` fans a bitmap out to every
discovered device.  Network interaction is modelled by explicit outcome
parameters: the device-listing response, whether `get_session` succeeds, and
the HTTP status each per-device `PUT` returns. -/

/-- A PIL image as far as the delivery path observes it: pixel size and mode
(`"L"` for the grayscale canvas the renderers produce, `"RGB"` after
`convert("RGB")`, modes with alpha would be `"RGBA"`/`"LA"`). -/
structure Img where
  width : Nat
  height : Nat
  mode : String
  deriving Repr, DecidableEq

/-- `img.resize(target_size, ...)`: new pixel size, same mode. -/
def resizeImg (i : Img) (t : Nat × Nat) : Img :=
  { width := t.1, height := t.2, mode := i.mode }

/-- `out.convert("RGB")`: same pixel size, alpha-free RGB mode. -/
def convertRGB (i : Img) : Img :=
  { width := i.width, height := i.height, mode := "RGB" }

/-- Resampling filter recorded when a resize happens (`Image.LANCZOS`). -/
inductive Resample where
  | lanczos
  deriving Repr, DecidableEq

/-- The upload `push_image` transmits: target device id, the raster actually
sent (after optional resize and `convert("RGB")`), and the resampling filter
used if a resize happened. -/
structure Upload where
  uuid : String
  raster : Img
  resample : Option Resample
  deriving Repr, DecidableEq

/-- Result of one `push_image` call that did not raise. -/
inductive PushOutcome where
  /-- `if not uuid: print("[push] No device UUID configured"); return` -/
  | noUuid
  /-- The `PUT` was issued and returned `status` (200 logged as success,
  anything else logged as failure; neither raises). -/
  | uploaded (u : Upload) (status : Nat)
  deriving Repr, DecidableEq

/-- Network behaviour during one delivery cycle: whether `get_session`'s login
succeeds (a failure makes `get_session` raise `RuntimeError`), and the HTTP
status the backend returns for a `PUT /backend/{uuid}`. -/
structure NetEnv where
  loginOk : Bool
  putStatus : String → Nat

/-- `push_image(img, device_uuid, target_size)` from `joan_dashboard.py`.
`defaultUuid` is the module constant `DEVICE_UUID` (empty string when not
configured); an empty `device_uuid` models passing `None`.  An `.error` result
is an exception the function let escape (only `get_session` can raise before
the `PUT` is issued). -/
def push_image (env : NetEnv) (defaultUuid : String) (img : Img)
    (device_uuid : String) (target_size : Option (Nat × Nat)) :
    Except String PushOutcome :=
  let uuid := if device_uuid = "" then defaultUuid else device_uuid
  if uuid = "" then .ok .noUuid
  else
    let out : Img × Option Resample :=
      match target_size with
      | some t =>
          if (img.width, img.height) ≠ t then (resizeImg img t, some .lanczos)
          else (img, none)
      | none => (img, none)
    if env.loginOk then
      .ok (.uploaded ⟨uuid, convertRGB out.1, out.2⟩ (env.putStatus uuid))
    else
      .error "VSS login failed"

/-- The same call under a successful login, as a total function (used to state
what `push_image` produces device by device). -/
def pushAttempt (env : NetEnv) (defaultUuid : String) (img : Img)
    (device_uuid : String) (target_size : Option (Nat × Nat)) : PushOutcome :=
  let uuid := if device_uuid = "" then defaultUuid else device_uuid
  if uuid = "" then .noUuid
  else
    let out : Img × Option Resample :=
      match target_size with
      | some t =>
          if (img.width, img.height) ≠ t then (resizeImg img t, some .lanczos)
          else (img, none)
      | none => (img, none)
    .uploaded ⟨uuid, convertRGB out.1, out.2⟩ (env.putStatus uuid)

/-- When login succeeds, `push_image` does not raise and returns the attempt's
outcome. -/
theorem push_image_loginOk (env : NetEnv) (defaultUuid : String) (img : Img)
    (device_uuid : String) (target_size : Option (Nat × Nat))
    (h : env.loginOk = true) :
    push_image env defaultUuid img device_uuid target_size
      = .ok (pushAttempt env defaultUuid img device_uuid target_size) := by
  unfold push_image pushAttempt
  by_cases hu : (if device_uuid = "" then defaultUuid else device_uuid) = ""
  · simp [hu]
  · simp [hu, h]

/-- One registered target device (`{"uuid", "name", "width", "height"}`). -/
structure Device where
  uuid : String
  name : String
  width : Nat
  height : Nat
  deriving Repr, DecidableEq

/-- The `for dev in devices:` loop body of `push_to_all`.  The Python loop has
no `try`/`except`, so an exception raised by `push_image` aborts the remaining
iterations; an HTTP error status is merely a value and the loop continues. -/
def pushLoop (env : NetEnv) (defaultUuid : String) (img : Img) :
    List Device → Except String (List PushOutcome)
  | [] => .ok []
  | dev :: rest =>
      match push_image env defaultUuid img dev.uuid (some (dev.width, dev.height)) with
      | .error e => .error e
      | .ok o =>
          match pushLoop env defaultUuid img rest with
          | .error e => .error e
          | .ok os => .ok (o :: os)

/-- `push_to_all(img)`: fan-out to every discovered device, falling back to
the single configured `DEVICE_UUID` (at canvas size, no resize) when discovery
found nothing. -/
def push_to_all (env : NetEnv) (defaultUuid : String) (devices : List Device)
    (img : Img) : Except String (List PushOutcome) :=
  match devices with
  | [] =>
      if defaultUuid = "" then .ok []
      else
        match push_image env defaultUuid img defaultUuid none with
        | .error e => .error e
        | .ok o => .ok [o]
  | _ :: _ => pushLoop env defaultUuid img devices

/-- Under a successful login, the delivery loop never aborts: it returns one
outcome per device, each computed from that device alone. -/
theorem pushLoop_loginOk (env : NetEnv) (defaultUuid : String) (img : Img)
    (devices : List Device) (h : env.loginOk = true) :
    pushLoop env defaultUuid img devices
      = .ok (devices.map (fun dev =>
          pushAttempt env defaultUuid img dev.uuid (some (dev.width, dev.height)))) := by
  induction devices with
  | nil => rfl
  | cons dev rest ih =>
      simp only [pushLoop, push_image_loginOk env defaultUuid img _ _ h, ih,
        List.map_cons]

/-- C4: `push_to_all` attempts a push to every device in the list; an HTTP
error returned for an earlier device is a value, not an exception, so it does
not prevent any later device's push from being attempted — the result holds
one outcome per listed device, each depending only on that device's own
`PUT` status. -/
theorem C4_push_to_all_attempts_every_device (env : NetEnv)
    (defaultUuid : String) (img : Img) (devices : List Device)
    (hlogin : env.loginOk = true) (hne : devices ≠ []) :
    push_to_all env defaultUuid devices img
      = .ok (devices.map (fun dev =>
          pushAttempt env defaultUuid img dev.uuid (some (dev.width, dev.height))))
    ∧ ∀ dev ∈ devices,
        pushAttempt env defaultUuid img dev.uuid (some (dev.width, dev.height))
          ∈ devices.map (fun dev =>
              pushAttempt env defaultUuid img dev.uuid (some (dev.width, dev.height))) := by
  constructor
  · cases devices with
    | nil => exact absurd rfl hne
    | cons dev rest => exact pushLoop_loginOk env defaultUuid img (dev :: rest) hlogin
  · intro dev hdev
    exact List.mem_map_of_mem _ hdev

/-- Witness for `C4_push_to_all_attempts_every_device`: device `A`'s endpoint
answers 500 and device `B`'s answers 200; both pushes are attempted and `B`'s
succeeds. -/
theorem C4_push_to_all_attempts_every_device_witness :
    (NetEnv.mk true (fun u => if u = "B" then 200 else 500)).loginOk = true
    ∧ ([⟨"A", "a", 800, 600⟩, ⟨"B", "b", 1600, 1200⟩] : List Device) ≠ []
    ∧ (push_to_all (NetEnv.mk true (fun u => if u = "B" then 200 else 500)) ""
          ([⟨"A", "a", 800, 600⟩, ⟨"B", "b", 1600, 1200⟩] : List Device)
          ⟨1600, 1200, "L"⟩
        = .ok (([⟨"A", "a", 800, 600⟩, ⟨"B", "b", 1600, 1200⟩] : List Device).map
            (fun dev =>
              pushAttempt (NetEnv.mk true (fun u => if u = "B" then 200 else 500)) ""
                ⟨1600, 1200, "L"⟩ dev.uuid (some (dev.width, dev.height))))
      ∧ ∀ dev ∈ ([⟨"A", "a", 800, 600⟩, ⟨"B", "b", 1600, 1200⟩] : List Device),
          pushAttempt (NetEnv.mk true (fun u => if u = "B" then 200 else 500)) ""
              ⟨1600, 1200, "L"⟩ dev.uuid (some (dev.width, dev.height))
            ∈ ([⟨"A", "a", 800, 600⟩, ⟨"B", "b", 1600, 1200⟩] : List Device).map
                (fun dev =>
                  pushAttempt (NetEnv.mk true (fun u => if u = "B" then 200 else 500)) ""
                    ⟨1600, 1200, "L"⟩ dev.uuid (some (dev.width, dev.height))))
    ∧ pushAttempt (NetEnv.mk true (fun u => if u = "B" then 200 else 500)) ""
        ⟨1600, 1200, "L"⟩ "B" (some (1600, 1200))
      = .uploaded ⟨"B", ⟨1600, 1200, "RGB"⟩, none⟩ 200 :=
  ⟨rfl, by decide,
    C4_push_to_all_attempts_every_device
      (NetEnv.mk true (fun u => if u = "B" then 200 else 500)) ""
      ⟨1600, 1200, "L"⟩ [⟨"A", "a", 800, 600⟩, ⟨"B", "b", 1600, 1200⟩]
      rfl (by decide),
    by decide⟩

/-- C8: under `push_to_all`'s per-device call, a device whose registered
resolution differs from the bitmap gets a LANCZOS resize to exactly the
registered `(width, height)` and the raster is flattened to alpha-free RGB
before transmission; a device at canvas resolution gets the unresized bitmap,
also flattened to RGB. -/
theorem C8_resize_and_flatten (env : NetEnv) (defaultUuid : String)
    (img : Img) (dev : Device)
    (hlogin : env.loginOk = true) (huuid : dev.uuid ≠ "") :
    ((img.width, img.height) ≠ (dev.width, dev.height) →
      push_image env defaultUuid img dev.uuid (some (dev.width, dev.height))
        = .ok (.uploaded ⟨dev.uuid, ⟨dev.width, dev.height, "RGB"⟩, some .lanczos⟩
            (env.putStatus dev.uuid)))
    ∧ ((img.width, img.height) = (dev.width, dev.height) →
      push_image env defaultUuid img dev.uuid (some (dev.width, dev.height))
        = .ok (.uploaded ⟨dev.uuid, ⟨img.width, img.height, "RGB"⟩, none⟩
            (env.putStatus dev.uuid))) := by
  rw [push_image_loginOk env defaultUuid img dev.uuid (some (dev.width, dev.height)) hlogin]
  unfold pushAttempt
  constructor
  · intro hne
    simp [huuid, hne, resizeImg, convertRGB]
  · intro heq
    simp [huuid, heq, convertRGB]

/-- Witness for `C8_resize_and_flatten`: a 1600x1200 grayscale canvas pushed
to an 800x600 device. -/
theorem C8_resize_and_flatten_witness :
    (NetEnv.mk true (fun _ => 200)).loginOk = true
    ∧ ("dev1" : String) ≠ ""
    ∧ ((((1600 : Nat), (1200 : Nat)) ≠ ((800 : Nat), (600 : Nat)) →
        push_image (NetEnv.mk true (fun _ => 200)) "" ⟨1600, 1200, "L"⟩ "dev1"
            (some (800, 600))
          = .ok (.uploaded ⟨"dev1", ⟨800, 600, "RGB"⟩, some .lanczos⟩
              ((NetEnv.mk true (fun _ => 200)).putStatus "dev1")))
      ∧ (((1600 : Nat), (1200 : Nat)) = ((800 : Nat), (600 : Nat)) →
        push_image (NetEnv.mk true (fun _ => 200)) "" ⟨1600, 1200, "L"⟩ "dev1"
            (some (800, 600))
          = .ok (.uploaded ⟨"dev1", ⟨1600, 1200, "RGB"⟩, none⟩
              ((NetEnv.mk true (fun _ => 200)).putStatus "dev1")))) :=
  ⟨rfl, by decide,
    C8_resize_and_flatten (NetEnv.mk true (fun _ => 200)) "" ⟨1600, 1200, "L"⟩
      ⟨"dev1", "kitchen", 800, 600⟩ rfl (by decide)⟩

/-- One device record as the VSS `/api/device/` listing reports it, restricted
to the fields `discover_devices` reads: `Uuid`, `Options.Allowed`,
`Displays` (as `(Width, Height)` pairs) and `Options.Revision`.  A missing
`Options.Allowed` or `Options.Revision` is `none`. -/
structure VssDevice where
  uuid : String
  allowed : Option String
  displays : List (Nat × Nat)
  revision : Option String
  deriving Repr, DecidableEq

/-- `raw.split(",")` on the underlying character list (Python `str.split` with
an explicit separator keeps empty fields; stripping and filtering happen in
the comprehension below). -/
def splitCommaAux : List Char → List Char → List (List Char)
  | [], acc => [acc.reverse]
  | c :: rest, acc =>
      if c = ',' then acc.reverse :: splitCommaAux rest []
      else splitCommaAux rest (c :: acc)

/-- The whitespace class `str.strip()` removes at both ends. -/
def isSpaceChar (c : Char) : Bool := c = ' ' || c = '\t' || c = '\n' || c = '\r'

/-- `u.strip()`. -/
def stripChars (s : List Char) : List Char :=
  ((s.dropWhile isSpaceChar).reverse.dropWhile isSpaceChar).reverse

/-- `[u.strip() for u in _DEVICE_UUIDS_RAW.split(",") if u.strip()]`. -/
def parseConfigured (raw : String) : List String :=
  (((splitCommaAux raw.data []).map (fun cs => String.mk (stripChars cs))).filter
    (fun u => u ≠ ""))

/-- Build the `Device` dict appended on the success path:
`Displays[0]` supplies the geometry when present, the canvas resolution
otherwise; the name is `Options.Revision` or the first 12 chars of the UUID. -/
def toDevice (d : VssDevice) : Device :=
  { uuid := d.uuid
    name := d.revision.getD (d.uuid.take 12)
    width := ((d.displays.head?).map Prod.fst).getD WIDTH
    height := ((d.displays.head?).map Prod.snd).getD HEIGHT }

/-- The `continue` conditions of the listing loop, complemented: a device is
kept when `Options.Allowed == "true"` and, if the configured UUID list is
non-empty, its UUID is in it. -/
def keepDevice (configured : List String) (d : VssDevice) : Bool :=
  d.allowed = some "true" && (configured.isEmpty || d.uuid ∈ configured)

/-- `discover_devices()` from `joan_dashboard.py`.  `resp` is the outcome of
the `try` block's networking: `.error` when `get_session`, the GET or JSON
decoding raises, `.ok (status, body)` when `/api/device/` answers with HTTP
`status` and device list `body`.  `uuidsRaw` is `_DEVICE_UUIDS_RAW`.

    try:
        s = get_session(base_url); r = s.get(f"{base_url}/api/device/", ...)
        if r.status_code == 200:
            configured = [u.strip() for u in _DEVICE_UUIDS_RAW.split(",") if u.strip()]
            for d in r.json():
                if d.get("Options", {}).get("Allowed") != "true": continue
                uuid = d["Uuid"]
                if configured and uuid not in configured: continue
                ...append...
    except Exception:
        for u in [...configured...]:
            devices.append({"uuid": u, "name": u[:12], "width": WIDTH, "height": HEIGHT})
    return devices
-/
def discover_devices (resp : Except String (Nat × List VssDevice))
    (uuidsRaw : String) : List Device :=
  match resp with
  | .ok (status, body) =>
      if status = 200 then
        (body.filter (keepDevice (parseConfigured uuidsRaw))).map toDevice
      else
        []
  | .error _ =>
      (parseConfigured uuidsRaw).map (fun u =>
        { uuid := u, name := u.take 12, width := WIDTH, height := HEIGHT })

/-- C9 counterexample: the claim asserts that a failed backend query returns
one device per configured UUID at canvas resolution.  When the listing
endpoint answers HTTP 500 (a failed query, but not an exception), the code
returns the empty list instead of the configured fallback. -/
theorem C9_counterexample :
    parseConfigured "abc" = ["abc"]
    ∧ discover_devices (.ok (500, [])) "abc" = []
    ∧ discover_devices (.ok (500, [])) "abc"
        ≠ [{ uuid := "abc", name := "abc", width := WIDTH, height := HEIGHT }] := by
  refine ⟨by decide, rfl, by decide⟩

/-- C9 (amended): on a 200 response `discover_devices` returns exactly the
devices marked allowed, restricted to the configured UUIDs when that list is
non-empty, each with its reported geometry or the 1600x1200 canvas default;
on an *exception* during the query (connection or login failure) it returns
one device per configured UUID at canvas resolution; a non-200 response
yields the empty list. -/
theorem C9_discover_devices (body : List VssDevice) (uuidsRaw err : String)
    (status : Nat) :
    (∀ d ∈ body, d.allowed = some "true" →
      (parseConfigured uuidsRaw = [] ∨ d.uuid ∈ parseConfigured uuidsRaw) →
      toDevice d ∈ discover_devices (.ok (200, body)) uuidsRaw)
    ∧ (∀ dev ∈ discover_devices (.ok (200, body)) uuidsRaw,
        ∃ d, d ∈ body ∧ d.allowed = some "true"
          ∧ (parseConfigured uuidsRaw = [] ∨ d.uuid ∈ parseConfigured uuidsRaw)
          ∧ dev = toDevice d)
    ∧ (∀ d : VssDevice,
        (d.displays = [] →
          (toDevice d).width = WIDTH ∧ (toDevice d).height = HEIGHT)
        ∧ ∀ w h rest, d.displays = (w, h) :: rest →
            (toDevice d).width = w ∧ (toDevice d).height = h)
    ∧ discover_devices (.error err) uuidsRaw
        = (parseConfigured uuidsRaw).map (fun u =>
            { uuid := u, name := u.take 12, width := WIDTH, height := HEIGHT })
    ∧ (status ≠ 200 →
        discover_devices (.ok (status, body)) uuidsRaw = []) := by
  refine ⟨?_, ?_, ?_, rfl, ?_⟩
  · intro d hd hall hconf
    simp only [discover_devices, if_pos rfl]
    refine List.mem_map_of_mem toDevice (List.mem_filter.2 ⟨hd, ?_⟩)
    simp only [keepDevice, Bool.and_eq_true, decide_eq_true_eq,
      Bool.or_eq_true, List.isEmpty_iff]
    exact ⟨hall, hconf⟩
  · intro dev hdev
    simp only [discover_devices, if_pos rfl] at hdev
    obtain ⟨d, hd, rfl⟩ := List.mem_map.1 hdev
    have hkeep := (List.mem_filter.1 hd).2
    simp only [keepDevice, Bool.and_eq_true, Bool.or_eq_true,
      List.isEmpty_iff, decide_eq_true_eq] at hkeep
    exact ⟨d, (List.mem_filter.1 hd).1, hkeep.1, hkeep.2, rfl⟩
  · intro d
    constructor
    · intro hnil
      simp [toDevice, hnil, WIDTH, HEIGHT]
    · intro w h rest hcons
      simp [toDevice, hcons]
  · intro hne
    simp [discover_devices, hne]

/-- Witness for `C9_discover_devices`: one allowed 800x600 device matching the
configured UUID `abc`; a 500 response yields no devices; an exception yields
the configured fallback. -/
theorem C9_discover_devices_witness :
    toDevice ⟨"abc", some "true", [(800, 600)], none⟩
        ∈ discover_devices
            (.ok (200, [⟨"abc", some "true", [(800, 600)], none⟩])) "abc"
    ∧ discover_devices (.error "down") "abc"
        = (parseConfigured "abc").map (fun u =>
            { uuid := u, name := u.take 12, width := WIDTH, height := HEIGHT })
    ∧ discover_devices
        (.ok (500, [⟨"abc", some "true", [(800, 600)], none⟩])) "abc" = [] :=
  ⟨(C9_discover_devices [⟨"abc", some "true", [(800, 600)], none⟩] "abc" "down" 500).1
      ⟨"abc", some "true", [(800, 600)], none⟩ (by decide) rfl
      (Or.inr (by decide)),
    (C9_discover_devices [⟨"abc", some "true", [(800, 600)], none⟩] "abc" "down" 500).2.2.2.1,
    (C9_discover_devices [⟨"abc", some "true", [(800, 600)], none⟩] "abc" "down" 500).2.2.2.2
      (by decide)⟩

/-! ## Playlist scheduler (`joan_dashboard.main`, playlist mode)

Times of day are minutes since midnight (`datetime.now().hour * 60 +
datetime.now().minute`), as `Int`. -/

/-- `interval = max(args.loop, 180)` — the rotation dwell, clamped to the
Joan 3-minute heartbeat. -/
def effectiveInterval (loopArg : Int) : Int := max loopArg 180

/-- The gating test at the top of each playlist pass:
`if now_mins < active_start or now_mins >= active_end:`. -/
def outsideWindowTop (activeStart activeEnd nowMins : Int) : Bool :=
  nowMins < activeStart || activeEnd ≤ nowMins

/-- The gating test re-evaluated before each individual screen:
`if now_mins < active_start or now_mins >= active_end: break`. -/
def outsideWindowPerScreen (activeStart activeEnd nowMins : Int) : Bool :=
  nowMins < activeStart || activeEnd ≤ nowMins

/-- The sleep computation of the `SLEEPING` branch.  In the source `wake_at`
is `active_start` on both sides of its conditional, and `now_m` is re-read
from the clock just after the gate fired; we model both reads as the same
instant `nowM`:

    if now_m >= active_end:
        sleep_mins = (24 * 60 - now_m) + wake_at
    else:
        sleep_mins = wake_at - now_m
-/
def sleepMins (activeStart activeEnd nowM : Int) : Int :=
  if activeEnd ≤ nowM then (24 * 60 - nowM) + activeStart
  else activeStart - nowM

/-- What one iteration of the `for name, render_fn in screens:` loop left
behind, as observable behaviour of the scheduler. -/
inductive TickEvent where
  /-- the try block ran to completion: the screen was rendered, pushed, and
  the loop slept `dwell` seconds (`time.sleep(interval)`). -/
  | pushed (name : String) (dwell : Int)
  /-- the try block raised: `print(f"[{name}] Error: {e}")`, nothing pushed
  for this tick, then the loop still slept `dwell` seconds. -/
  | producerError (name : String) (dwell : Int)
  /-- the per-screen re-check of the active window fired and broke out of the
  pass. -/
  | gateBreak
  deriving Repr, DecidableEq

/-- One pass of the inner `for` loop over the playlist.  `times i` is the
minute-of-day read before the `i`-th remaining screen; each screen's entry
carries the outcome of its try block (`render_fn()` followed by
`push_to_all`): `.ok img` when it completed, `.error e` when it raised.  The
`except Exception` handler makes a raising entry produce a logged event and
fall through to the sleep, never terminating the loop. -/
def playlistPass (activeStart activeEnd interval : Int) (times : Nat → Int) :
    Nat → List (String × Except String Img) → List TickEvent
  | _, [] => []
  | i, (name, body) :: rest =>
      if outsideWindowPerScreen activeStart activeEnd (times i) then
        [.gateBreak]
      else
        match body with
        | .ok _ =>
            .pushed name interval ::
              playlistPass activeStart activeEnd interval times (i + 1) rest
        | .error _ =>
            .producerError name interval ::
              playlistPass activeStart activeEnd interval times (i + 1) rest

/-- When every per-screen gate check stays inside the window, the pass
processes the whole playlist: one event per entry. -/
theorem playlistPass_length (s e itv : Int) (times : Nat → Int)
    (l : List (String × Except String Img))
    (hgate : ∀ j, outsideWindowPerScreen s e (times j) = false) :
    ∀ i, (playlistPass s e itv times i l).length = l.length := by
  induction l with
  | nil => intro i; rfl
  | cons hd tl ih =>
      intro i
      obtain ⟨name, body⟩ := hd
      cases body <;> simp [playlistPass, hgate i, ih (i + 1)]

/-- Every dwell recorded by a pass equals the pass's interval. -/
theorem playlistPass_dwell (s e itv : Int) (times : Nat → Int)
    (l : List (String × Except String Img)) :
    ∀ i nm d,
      (TickEvent.pushed nm d ∈ playlistPass s e itv times i l
        ∨ TickEvent.producerError nm d ∈ playlistPass s e itv times i l) →
      d = itv := by
  induction l with
  | nil => intro i nm d h; rcases h with h | h <;> simp [playlistPass] at h
  | cons hd tl ih =>
      intro i nm d h
      obtain ⟨name, body⟩ := hd
      by_cases hg : outsideWindowPerScreen s e (times i) = true
      · rcases h with h | h <;> simp [playlistPass, hg] at h
      · rw [Bool.not_eq_true] at hg
        cases body with
        | ok img =>
            rcases h with h | h <;> simp [playlistPass, hg] at h
            · rcases h with ⟨_, rfl⟩ | h
              · rfl
              · exact ih (i + 1) nm d (Or.inl h)
            · exact ih (i + 1) nm d (Or.inr h)
        | error msg =>
            rcases h with h | h <;> simp [playlistPass, hg] at h
            · exact ih (i + 1) nm d (Or.inl h)
            · rcases h with ⟨_, rfl⟩ | h
              · rfl
              · exact ih (i + 1) nm d (Or.inr h)

/-- C5: a playlist entry whose try block raises during a rotation tick yields
exactly one `producerError` event carrying the screen name (the catch at the
dispatch boundary): no push happens for that tick, every entry before and
after it in the pass is still processed, and the pass runs to completion —
the raising producer never terminates the loop. -/
theorem C5_producer_isolation (s e itv : Int) (times : Nat → Int)
    (pre post : List (String × Except String Img))
    (badName errMsg : String) (i : Nat)
    (hgate : ∀ j, outsideWindowPerScreen s e (times j) = false) :
    playlistPass s e itv times i (pre ++ (badName, .error errMsg) :: post)
      = playlistPass s e itv times i pre
        ++ TickEvent.producerError badName itv
          :: playlistPass s e itv times (i + pre.length + 1) post
    ∧ (playlistPass s e itv times i (pre ++ (badName, .error errMsg) :: post)).length
        = pre.length + 1 + post.length
    ∧ TickEvent.producerError badName itv
        ∈ playlistPass s e itv times i (pre ++ (badName, .error errMsg) :: post) := by
  have hsplit : ∀ (i : Nat) (pre : List (String × Except String Img)),
      playlistPass s e itv times i (pre ++ (badName, .error errMsg) :: post)
        = playlistPass s e itv times i pre
          ++ TickEvent.producerError badName itv
            :: playlistPass s e itv times (i + pre.length + 1) post := by
    intro i pre
    induction pre generalizing i with
    | nil => simp [playlistPass, hgate i]
    | cons hd tl ih =>
        obtain ⟨name, body⟩ := hd
        have harith : i + 1 + tl.length + 1 = i + (tl.length + 1) + 1 := by omega
        cases body <;>
          simp [playlistPass, hgate i, ih (i + 1), harith]
  refine ⟨hsplit i pre, ?_, ?_⟩
  · rw [playlistPass_length s e itv times _ hgate i]
    simp
    omega
  · rw [hsplit i pre]
    exact List.mem_append_right _ (List.mem_cons_self _ _)

/-- Witness for `C5_producer_isolation`: playlist `[a, quote, b]` where
`quote` raises; `a` and `b` are still rendered and pushed. -/
theorem C5_producer_isolation_witness :
    (∀ j : Nat, outsideWindowPerScreen 420 1260 ((fun _ => 500) j) = false)
    ∧ (playlistPass 420 1260 180 (fun _ => 500) 0
        ([("a", .ok ⟨1600, 1200, "L"⟩)]
          ++ ("quote", (.error "boom" : Except String Img))
            :: [("b", .ok ⟨1600, 1200, "L"⟩)])
      = playlistPass 420 1260 180 (fun _ => 500) 0 [("a", .ok ⟨1600, 1200, "L"⟩)]
        ++ TickEvent.producerError "quote" 180
          :: playlistPass 420 1260 180 (fun _ => 500)
              (0 + [("a", (.ok ⟨1600, 1200, "L"⟩ : Except String Img))].length + 1)
              [("b", .ok ⟨1600, 1200, "L"⟩)]
      ∧ (playlistPass 420 1260 180 (fun _ => 500) 0
          ([("a", .ok ⟨1600, 1200, "L"⟩)]
            ++ ("quote", (.error "boom" : Except String Img))
              :: [("b", .ok ⟨1600, 1200, "L"⟩)])).length
        = [("a", (.ok ⟨1600, 1200, "L"⟩ : Except String Img))].length + 1
          + [("b", (.ok ⟨1600, 1200, "L"⟩ : Except String Img))].length
      ∧ TickEvent.producerError "quote" 180
          ∈ playlistPass 420 1260 180 (fun _ => 500) 0
              ([("a", .ok ⟨1600, 1200, "L"⟩)]
                ++ ("quote", (.error "boom" : Except String Img))
                  :: [("b", .ok ⟨1600, 1200, "L"⟩)])) :=
  ⟨fun _ => rfl,
    C5_producer_isolation 420 1260 180 (fun _ => 500)
      [("a", .ok ⟨1600, 1200, "L"⟩)] [("b", .ok ⟨1600, 1200, "L"⟩)]
      "quote" "boom" 0 (fun _ => rfl)⟩

/-- C6: outside the active window the scheduler sleeps `start - m` minutes
when the current minute `m` is before the window, and `(1440 - m) + start`
minutes when `m` is at or past the window's end (wrap to the next day);
a `07:00-21:00` window gives a 1-minute wait at `06:59` and
`(24*60 - 21*60 - 1) + 7*60 = 599` minutes at `21:01`. -/
theorem C6_sleep_duration (s e m : Int) (hse : s < e)
    (hout : outsideWindowTop s e m = true) :
    (m < s ∨ e ≤ m)
    ∧ (m < s → sleepMins s e m = s - m)
    ∧ (e ≤ m → sleepMins s e m = (1440 - m) + s)
    ∧ sleepMins 420 1260 419 = 1
    ∧ sleepMins 420 1260 1261 = (24 * 60 - 21 * 60 - 1) + 7 * 60 := by
  refine ⟨?_, ?_, ?_, by decide, by decide⟩
  · simp only [outsideWindowTop, Bool.or_eq_true, decide_eq_true_eq] at hout
    exact hout
  · intro hlt
    have : ¬ e ≤ m := by omega
    simp [sleepMins, this]
  · intro hge
    simp [sleepMins, hge]

/-- Witness for `C6_sleep_duration` at `21:01` with the default window. -/
theorem C6_sleep_duration_witness :
    (420 : Int) < 1260
    ∧ outsideWindowTop 420 1260 1261 = true
    ∧ (((1261 : Int) < 420 ∨ (1260 : Int) ≤ 1261)
      ∧ ((1261 : Int) < 420 → sleepMins 420 1260 1261 = 420 - 1261)
      ∧ ((1260 : Int) ≤ 1261 → sleepMins 420 1260 1261 = (1440 - 1261) + 420)
      ∧ sleepMins 420 1260 419 = 1
      ∧ sleepMins 420 1260 1261 = (24 * 60 - 21 * 60 - 1) + 7 * 60) :=
  ⟨by decide, by decide, C6_sleep_duration 420 1260 1261 (by decide) (by decide)⟩

/-- C7: the effective dwell between pushes in playlist mode is
`max(loop, 180)` seconds — at least 180, the configured value once it exceeds
the clamp, and a configured 10 becomes 180; every dwell a pass records equals
this clamped interval. -/
theorem C7_min_interval (i s e : Int) (times : Nat → Int) (idx : Nat)
    (screens : List (String × Except String Img)) :
    (180 : Int) ≤ effectiveInterval i
    ∧ (180 ≤ i → effectiveInterval i = i)
    ∧ effectiveInterval 10 = 180
    ∧ (∀ nm d, TickEvent.pushed nm d
        ∈ playlistPass s e (effectiveInterval i) times idx screens →
        d = max i 180)
    ∧ (∀ nm d, TickEvent.producerError nm d
        ∈ playlistPass s e (effectiveInterval i) times idx screens →
        d = max i 180) := by
  refine ⟨le_max_right i 180, ?_, by decide, ?_, ?_⟩
  · intro h
    exact max_eq_left h
  · intro nm d h
    exact playlistPass_dwell s e (effectiveInterval i) times screens idx nm d (Or.inl h)
  · intro nm d h
    exact playlistPass_dwell s e (effectiveInterval i) times screens idx nm d (Or.inr h)

/-- Witness for `C7_min_interval`: a configured `--loop 10` dwells 180 s. -/
theorem C7_min_interval_witness :
    ((180 : Int) ≤ effectiveInterval 10
      ∧ ((180 : Int) ≤ 10 → effectiveInterval 10 = 10)
      ∧ effectiveInterval 10 = 180
      ∧ (∀ nm d, TickEvent.pushed nm d
          ∈ playlistPass 420 1260 (effectiveInterval 10) (fun _ => 500) 0
              [("a", .ok ⟨1600, 1200, "L"⟩)] →
          d = max 10 180)
      ∧ (∀ nm d, TickEvent.producerError nm d
          ∈ playlistPass 420 1260 (effectiveInterval 10) (fun _ => 500) 0
              [("a", .ok ⟨1600, 1200, "L"⟩)] →
          d = max 10 180))
    ∧ (180 : Int) = max 10 180 :=
  ⟨C7_min_interval 10 420 1260 (fun _ => 500) 0 [("a", .ok ⟨1600, 1200, "L"⟩)],
    (C7_min_interval 10 420 1260 (fun _ => 500) 0
        [("a", .ok ⟨1600, 1200, "L"⟩)]).2.2.2.1 "a" 180 (by decide)⟩

/-- C10: for an active window with `start < end` the gate is half-open —
the minute equal to `start` is inside (rotation proceeds), the minute equal
to `end` is outside (sleeping branch) — and the predicate checked at the top
of each pass agrees with the one re-checked before each screen at every
minute. -/
theorem C10_half_open_gate (s e : Int) (hse : s < e) :
    outsideWindowTop s e s = false
    ∧ outsideWindowTop s e e = true
    ∧ ∀ m, outsideWindowTop s e m = outsideWindowPerScreen s e m := by
  refine ⟨?_, ?_, fun m => rfl⟩
  · simp only [outsideWindowTop, Bool.or_eq_false_iff, decide_eq_false_iff_not]
    omega
  · simp only [outsideWindowTop, Bool.or_eq_true, decide_eq_true_eq]
    omega

/-- Witness for `C10_half_open_gate` with the default `07:00-21:00` window. -/
theorem C10_half_open_gate_witness :
    (420 : Int) < 1260
    ∧ (outsideWindowTop 420 1260 420 = false
      ∧ outsideWindowTop 420 1260 1260 = true
      ∧ ∀ m, outsideWindowTop 420 1260 m = outsideWindowPerScreen 420 1260 m) :=
  ⟨by decide, C10_half_open_gate 420 1260 (by decide)⟩

end Joan
